import Mathlib

/-!
Verification of the invoice domain logic of the client-portal repository
(frontend/src/pages/Invoices.jsx and the earlier invoices page variant).

The JavaScript source is shallowly embedded: numeric form fields (which may
arrive as numbers, numeric strings, non-numeric strings, or be missing) are
modelled by `RawNum`; monetary arithmetic is exact rational arithmetic (`ℚ`);
calendar dates are `Date` triples with calendar-day addition; timestamps used
only for comparison (overdue checks) are integers.
-/

namespace ClientPortal

/-- A raw numeric form field as JavaScript sees it before coercion: a numeric
value (a number, or a numeric string whose `parseFloat` value is `q`), a
non-numeric string (`parseFloat` yields `NaN`), or a missing field
(`undefined`). -/
inductive RawNum where
  | num (q : ℚ)
  | nonNumeric
  | missing
deriving DecidableEq

/-- `parseFloat(x) || 0` from Invoices.jsx: the parsed value, with `NaN`
(non-numeric) and missing inputs collapsing to `0`. -/
def parseFloatOr0 : RawNum → ℚ
  | .num q => q
  | .nonNumeric => 0
  | .missing => 0

/-- JavaScript `String.prototype.trim`: remove whitespace from both ends of
the string (modelled over the character list of the string). -/
def jsTrim (s : String) : String :=
  String.mk
    (((s.data.dropWhile Char.isWhitespace).reverse.dropWhile
        Char.isWhitespace).reverse)

/-- `item.description?.trim() || ''` from `normalizeItems` (Invoices.jsx:127):
a missing description becomes the empty string, otherwise the description is
trimmed (an all-whitespace string trims to `""`, which `|| ''` leaves as
`""`). -/
def trimOrEmpty : Option String → String
  | none => ""
  | some s => jsTrim s

/-- A raw edit-buffer line item (`form.items` entry): the `id` is present only
for persisted items; `description`, `quantity` and `unit_price` are raw form
values. -/
structure RawItem where
  id : Option ℕ
  description : Option String
  quantity : RawNum
  unit_price : RawNum
deriving DecidableEq

/-- A normalized line item, as produced by `normalizeItems`. -/
structure Item where
  id : Option ℕ
  description : String
  quantity : ℚ
  unit_price : ℚ
deriving DecidableEq

/-- The per-item normalization step of `normalizeItems` (Invoices.jsx:125-130):
the spread keeps `id`, the description is trimmed (empty when missing), and
the numeric fields are coerced with `parseFloat(x) || 0`. -/
def normalizeItem (it : RawItem) : Item :=
  { id := it.id
    description := trimOrEmpty it.description
    quantity := parseFloatOr0 it.quantity
    unit_price := parseFloatOr0 it.unit_price }

/-- `normalizeItems` (Invoices.jsx:124-131): map each item through the
normalization and then keep only items whose (trimmed) description is truthy,
i.e. non-empty. -/
def normalizeItems (items : List RawItem) : List Item :=
  (items.map normalizeItem).filter (fun it => it.description ≠ "")

/-- The totals object `{subtotal, discount, tax, total}` returned by
`calculateFormTotals`. -/
structure Totals where
  subtotal : ℚ
  discount : ℚ
  tax : ℚ
  total : ℚ
deriving DecidableEq

/-- `calculateFormTotals` (Invoices.jsx:133-146), as a function of the raw
item list and the raw `discount_percent` and `tax_rate` fields: normalize the
items, sum `quantity * unit_price` with `reduce` (a left fold from `0`), then
apply discount and tax percentages. -/
def calculateFormTotals (items : List RawItem)
    (discount_percent tax_rate : RawNum) : Totals :=
  let its := normalizeItems items
  let subtotal := its.foldl (fun sum it => sum + it.quantity * it.unit_price) 0
  let discount := subtotal * (parseFloatOr0 discount_percent / 100)
  let taxable := subtotal - discount
  let tax := taxable * (parseFloatOr0 tax_rate / 100)
  let total := taxable + tax
  { subtotal := subtotal, discount := discount, tax := tax, total := total }

/-- JavaScript truthiness of an item `id` as tested by `if (item.id)` and
`items.filter((item) => item.id)` in `syncInvoiceItems`: `undefined` (here
`none`) and the number `0` are falsy. -/
def jsTruthyId : Option ℕ → Bool
  | none => false
  | some n => n ≠ 0

/-- One API call issued by `syncInvoiceItems`: `PUT` (update) or `POST`
(create) on `/invoices/{invoiceId}/items...`, or `DELETE` on
`/invoices/{invoiceId}/items/{itemId}`. The ids carried are the raw
`item.id` values the code interpolates into the URL. -/
inductive ItemOp where
  | update (invoiceId : ℕ) (itemId : Option ℕ) (description : String)
      (quantity unit_price : ℚ)
  | create (invoiceId : ℕ) (description : String) (quantity unit_price : ℚ)
  | delete (invoiceId : ℕ) (itemId : Option ℕ)
deriving DecidableEq

/-- `syncInvoiceItems` (Invoices.jsx:189-213) as the ordered plan of API
calls it awaits: `desiredIds` are the ids of truthy-id buffer items; the
first loop emits an update for each truthy-id buffer item and a create for
the rest, in buffer order; the second loop then deletes every existing item
whose id is not contained in `desiredIds`. -/
def syncInvoiceItems (invoiceId : ℕ) (existingItems items : List Item) :
    List ItemOp :=
  let desiredIds :=
    (items.filter (fun it => jsTruthyId it.id)).map (fun it => it.id)
  let itemsToDelete :=
    existingItems.filter (fun it => !(desiredIds.contains it.id))
  (items.map (fun it =>
      if jsTruthyId it.id then
        ItemOp.update invoiceId it.id it.description it.quantity it.unit_price
      else
        ItemOp.create invoiceId it.description it.quantity it.unit_price))
    ++ itemsToDelete.map (fun it => ItemOp.delete invoiceId it.id)

/-- A calendar date (year, month 1-12, day 1-31), as carried by the
`YYYY-MM-DD` date strings of the form. -/
structure Date where
  year : ℕ
  month : ℕ
  day : ℕ
deriving DecidableEq

/-- Gregorian leap-year rule. -/
def isLeapYear (y : ℕ) : Bool :=
  (y % 4 == 0 && y % 100 != 0) || y % 400 == 0

/-- Number of days of month `m` in year `y`. -/
def daysInMonth (y m : ℕ) : ℕ :=
  if m = 2 then (if isLeapYear y then 29 else 28)
  else if m = 4 ∨ m = 6 ∨ m = 9 ∨ m = 11 then 30
  else 31

/-- The calendar day after `d`, rolling over month and year ends. -/
def nextDay (d : Date) : Date :=
  if d.day < daysInMonth d.year d.month then ⟨d.year, d.month, d.day + 1⟩
  else if d.month < 12 then ⟨d.year, d.month + 1, 1⟩
  else ⟨d.year + 1, 1, 1⟩

/-- Calendar-day addition: `n` successive next-days. This is the effect of
JavaScript `due.setDate(issue.getDate() + days)` for `days ≥ 0`, which
normalizes day-of-month overflow through months and years. -/
def addDays (d : Date) : ℕ → Date
  | 0 => d
  | n + 1 => addDays (nextDay d) n

/-- The `PAYMENT_DAYS` lookup table (Invoices.jsx:28-35) as JavaScript
property access: known keys map to their day offsets (including
`custom ↦ 30`, although `handleTermsChange` never uses that entry to set a
date), unknown keys yield `undefined` (`none`). -/
def PAYMENT_DAYS (value : String) : Option ℕ :=
  if value = "due_on_receipt" then some 0
  else if value = "net_7" then some 7
  else if value = "net_15" then some 15
  else if value = "net_30" then some 30
  else if value = "net_60" then some 60
  else if value = "custom" then some 30
  else none

/-- The invoice form state (`form` in Invoices.jsx): empty date strings are
falsy in JavaScript and are modelled as `none`; the numeric rate fields are
raw form values. -/
structure Form where
  issue_date : Option Date
  due_date : Option Date
  payment_terms : String
  tax_rate : RawNum
  discount_percent : RawNum
  description : String
  notes : String
  project_id : String
  items : List RawItem
  client_id : String
deriving DecidableEq

/-- `handleTermsChange` (Invoices.jsx:301-315): with no issue date set, only
`payment_terms` is updated; otherwise the due date becomes
`issue_date + (PAYMENT_DAYS[value] ?? 30)` calendar days, except that a
change to `custom` keeps the current due date. -/
def handleTermsChange (form : Form) (value : String) : Form :=
  match form.issue_date with
  | none => { form with payment_terms := value }
  | some nextIssue =>
    let days := (PAYMENT_DAYS value).getD 30
    let due := addDays nextIssue days
    { form with
        payment_terms := value
        due_date := if value = "custom" then form.due_date else some due }

/-- `EMPTY_ITEM` (Invoices.jsx:37): a blank line item with quantity 1 and
unit price 0. -/
def EMPTY_ITEM : RawItem :=
  { id := none, description := some "", quantity := .num 1,
    unit_price := .num 0 }

/-- `getDefaultForm` (Invoices.jsx:39-56), parametrized by today's date: the
due date defaults to today plus the net-30 offset and the item list to one
blank item. -/
def getDefaultForm (today : Date) : Form :=
  { issue_date := some today
    due_date := some (addDays today 30)
    payment_terms := "net_30"
    tax_rate := .num 0
    discount_percent := .num 0
    description := ""
    notes := ""
    project_id := ""
    items := [EMPTY_ITEM]
    client_id := "" }

/-- An invoice record as delivered by the API, with the fields the Invoices
page reads. Optional fields model values that may be absent or falsy. -/
structure Invoice where
  id : ℕ
  invoice_number : String
  client_id : ℕ
  project_id : Option ℕ
  issue_date : Option Date
  due_date : Option Date
  payment_terms : Option String
  tax_rate : Option ℚ
  discount_percent : Option ℚ
  description : Option String
  notes : Option String
  status : String
  amount_due : Option ℚ
  total : Option ℚ
  items : List Item
deriving DecidableEq

/-- The form `handleEdit` builds from an invoice (Invoices.jsx:215-237):
falsy fields fall back to defaults, persisted items are copied into the edit
buffer, and an empty item list is replaced by one blank item. -/
def editForm (invoice : Invoice) : Form :=
  { issue_date := invoice.issue_date
    due_date := invoice.due_date
    payment_terms := invoice.payment_terms.getD "net_30"
    tax_rate := .num (invoice.tax_rate.getD 0)
    discount_percent := .num (invoice.discount_percent.getD 0)
    description := (invoice.description).getD ""
    notes := (invoice.notes).getD ""
    project_id := match invoice.project_id with
      | some n => toString n
      | none => ""
    items := if invoice.items.isEmpty then [EMPTY_ITEM]
      else invoice.items.map (fun it =>
        { id := it.id, description := some it.description,
          quantity := .num it.quantity, unit_price := .num it.unit_price })
    client_id := toString invoice.client_id }

/-- The Add Item button handler (Invoices.jsx:725): append one blank item. -/
def addItem (form : Form) : Form :=
  { form with items := form.items ++ [EMPTY_ITEM] }

/-- The per-item remove handler (Invoices.jsx:790-793): drop the item at
`index` (`filter((_, itemIndex) => itemIndex !== index)`); if the result is
empty, substitute one blank item. -/
def removeItem (form : Form) (index : ℕ) : Form :=
  let nextItems := form.items.eraseIdx index
  { form with items := if nextItems.isEmpty then [EMPTY_ITEM] else nextItems }

/-- Replace the item at `index` by `f` of it, leaving the list unchanged when
`index` is out of range — the effect of `nextItems[index] = { ...only
nextItems[index], field: value }` for an index of a rendered row. -/
def modifyItemAt (f : RawItem → RawItem) : List RawItem → ℕ → List RawItem
  | [], _ => []
  | it :: rest, 0 => f it :: rest
  | it :: rest, n + 1 => it :: modifyItemAt f rest n

/-- The description field handler of a line-item row (Invoices.jsx:742-746). -/
def setItemDescription (form : Form) (index : ℕ) (value : String) : Form :=
  { form with items := (modifyItemAt
      (fun it => { it with description := some value }) form.items index) }

/-- The quantity field handler of a line-item row (Invoices.jsx:755-759);
the input value arrives as a raw string. -/
def setItemQuantity (form : Form) (index : ℕ) (value : RawNum) : Form :=
  { form with items := (modifyItemAt
      (fun it => { it with quantity := value }) form.items index) }

/-- The unit price field handler of a line-item row (Invoices.jsx:779-783). -/
def setItemUnitPrice (form : Form) (index : ℕ) (value : RawNum) : Form :=
  { form with items := (modifyItemAt
      (fun it => { it with unit_price := value }) form.items index) }

/-- The overdue display flag of the Invoices page (Invoices.jsx:455-457):
`dueDate && dueDate < new Date() && status !== 'paid' && status !==
'cancelled'`, with dates compared as timestamps (integers here) and a falsy
`due_date` giving `null`, i.e. not overdue. -/
def isOverdue (due_date : Option ℤ) (now : ℤ) (status : String) : Bool :=
  match due_date with
  | none => false
  | some d => decide (d < now) && decide (status ≠ "paid")
      && decide (status ≠ "cancelled")

/-- The overdue derivation of the earlier invoices page variant
(src/unnamed/part_001:252-253): `new Date(invoice.due_date) < new Date() &&
invoice.status !== 'paid'` — no check that the due date is set (an invalid
date compares false) and no exclusion of `cancelled`. -/
def isOverdueLegacy (due_date : Option ℤ) (now : ℤ) (status : String) :
    Bool :=
  (match due_date with
    | none => false
    | some d => decide (d < now)) && decide (status ≠ "paid")

/-- An error thrown by a failing API call. -/
structure ApiError where
  msg : String
deriving DecidableEq

/-- Sequential execution of an item-sync plan against an API whose outcome
per call is given by `api`, as performed by the `await` loops of
`syncInvoiceItems`: operations run in order until the first failure, whose
thrown exception aborts the remainder. The first component is the list of
operations that actually succeeded (the server-side effect); the second is
all the caller observes: success, or the single thrown error. -/
def runSync (api : ItemOp → Except ApiError Unit) :
    List ItemOp → List ItemOp × Except ApiError Unit
  | [] => ([], .ok ())
  | op :: rest =>
    match api op with
    | .ok _ =>
      let r := runSync api rest
      (op :: r.1, r.2)
    | .error e => ([], .error e)

/-- What `handleSubmit` (Invoices.jsx:148-187) surfaces from the save/sync
outcome: its `catch` block only calls `console.error`, rethrows nothing and
sets no error state, so no error value reaches the caller or the UI state in
either case. -/
def handleSubmitSurfaced : Except ApiError Unit → Option ApiError
  | .ok _ => none
  | .error _ => none

/-- A two-operation sync plan from an edit session: update item 1, then
create item C. -/
def examplePlan : List ItemOp :=
  [ItemOp.update 7 (some 1) "A2" 3 30, ItemOp.create 7 "C" 1 5]

/-- An API in which update calls fail: the example plan fails at its first
operation, before anything succeeded. -/
def apiFailUpdate : ItemOp → Except ApiError Unit
  | .update _ _ _ _ _ => .error ⟨"request failed"⟩
  | _ => .ok ()

/-- An API in which create calls fail: the example plan's first operation
succeeds and its second fails. -/
def apiFailCreate : ItemOp → Except ApiError Unit
  | .create _ _ _ _ => .error ⟨"request failed"⟩
  | _ => .ok ()

/-- The `reduce` in `calculateFormTotals` — a left fold accumulating
`quantity * unit_price` — computes the initial value plus the sum of the
per-item amounts. -/
theorem foldl_amounts_eq_sum :
    ∀ (l : List Item) (a : ℚ),
      l.foldl (fun sum it => sum + it.quantity * it.unit_price) a
        = a + (l.map (fun it => it.quantity * it.unit_price)).sum := by
  intro l
  induction l with
  | nil => intro a; simp
  | cons x xs ih =>
    intro a
    simp only [List.foldl_cons, List.map_cons, List.sum_cons, ih]
    ring

/-- Filtering a mapped list by a predicate on the image equals mapping the
list filtered by the composed predicate. -/
theorem filter_map_comm {α β : Type} (f : α → β) (p : β → Bool) :
    ∀ l : List α, (l.map f).filter p = (l.filter (fun x => p (f x))).map f := by
  intro l
  induction l with
  | nil => rfl
  | cons x xs ih =>
    by_cases h : p (f x) = true
    · simp [List.filter_cons, h, ih]
    · simp only [Bool.not_eq_true] at h
      simp [List.filter_cons, h, ih]

/-- C1: the totals calculator first discards items whose description is empty
after trimming and coerces quantity, unit_price and each rate with non-numeric
or missing values becoming 0, then returns subtotal = Σ quantity*unit_price
over the normalized items, discount = subtotal*(discount_percent/100),
tax = (subtotal-discount)*(tax_rate/100), total = (subtotal-discount)+tax;
in particular one item (Design, 10, 50) with discount 10% and tax 8% yields
subtotal 500, discount 50, tax 36, total 486. -/
theorem calculateFormTotals_spec :
    (∀ (items : List RawItem) (d t : RawNum),
        normalizeItems items
            = (items.filter
                (fun it => trimOrEmpty it.description ≠ "")).map normalizeItem
      ∧ (calculateFormTotals items d t).subtotal
            = ((normalizeItems items).map
                (fun it => it.quantity * it.unit_price)).sum
      ∧ (calculateFormTotals items d t).discount
            = (calculateFormTotals items d t).subtotal * (parseFloatOr0 d / 100)
      ∧ (calculateFormTotals items d t).tax
            = ((calculateFormTotals items d t).subtotal
                - (calculateFormTotals items d t).discount)
              * (parseFloatOr0 t / 100)
      ∧ (calculateFormTotals items d t).total
            = ((calculateFormTotals items d t).subtotal
                - (calculateFormTotals items d t).discount)
              + (calculateFormTotals items d t).tax)
    ∧ parseFloatOr0 .nonNumeric = 0
    ∧ parseFloatOr0 .missing = 0
    ∧ calculateFormTotals [⟨none, some "Design", .num 10, .num 50⟩]
        (.num 10) (.num 8)
        = ⟨500, 50, 36, 486⟩ := by
  refine ⟨?_, rfl, rfl, ?_⟩
  · intro items d t
    refine ⟨?_, ?_, rfl, rfl, rfl⟩
    · unfold normalizeItems
      rw [filter_map_comm]
      simp only [normalizeItem]
    · show (normalizeItems items).foldl
          (fun sum it => sum + it.quantity * it.unit_price) 0 = _
      rw [foldl_amounts_eq_sum]
      simp
  · have h : normalizeItems [⟨none, some "Design", .num 10, .num 50⟩]
        = [⟨none, "Design", 10, 50⟩] := by decide
    simp only [calculateFormTotals, h, List.foldl_cons, List.foldl_nil]
    norm_num [parseFloatOr0, Totals.mk.injEq]

/-- C6 counterexample: the claim asserts `total ≥ 0` for every
`discount_percent` and `tax_rate` whenever all normalized quantities and unit
prices are non-negative, but the calculator passes rates through unclamped:
a single item (A, quantity 1, unit price 1) with `discount_percent = 200` and
`tax_rate = 0` has all normalized quantities and prices non-negative yet
`total = -1 < 0`. -/
theorem totals_nonneg_counterexample :
    (normalizeItems [⟨none, some "A", .num 1, .num 1⟩]).all
        (fun it => decide (0 ≤ it.quantity) && decide (0 ≤ it.unit_price))
      = true
    ∧ (calculateFormTotals [⟨none, some "A", .num 1, .num 1⟩]
        (.num 200) (.num 0)).total < 0 := by
  constructor
  · decide
  · have h : normalizeItems [⟨none, some "A", .num 1, .num 1⟩]
        = [⟨none, "A", 1, 1⟩] := by decide
    simp only [calculateFormTotals, h, List.foldl_cons, List.foldl_nil]
    norm_num [parseFloatOr0]

/-- C6 (amended): for every item list whose normalized quantities and unit
prices are all non-negative, and rates with `0 ≤ discount_percent ≤ 100` and
`0 ≤ tax_rate` after coercion, the calculator satisfies `total ≥ 0`; and for
every input whatsoever `total = subtotal - discount + tax` holds exactly. -/
theorem totals_nonneg_amended (items : List RawItem) (d t : RawNum)
    (hitems : ∀ it ∈ normalizeItems items,
        0 ≤ it.quantity ∧ 0 ≤ it.unit_price)
    (hd0 : 0 ≤ parseFloatOr0 d) (hd1 : parseFloatOr0 d ≤ 100)
    (ht : 0 ≤ parseFloatOr0 t) :
    0 ≤ (calculateFormTotals items d t).total
    ∧ (calculateFormTotals items d t).total
        = (calculateFormTotals items d t).subtotal
          - (calculateFormTotals items d t).discount
          + (calculateFormTotals items d t).tax := by
  refine ⟨?_, rfl⟩
  have hs : 0 ≤ (normalizeItems items).foldl
      (fun sum it => sum + it.quantity * it.unit_price) 0 := by
    rw [foldl_amounts_eq_sum]
    have : 0 ≤ ((normalizeItems items).map
        (fun it => it.quantity * it.unit_price)).sum := by
      apply List.sum_nonneg
      intro x hx
      rcases List.mem_map.1 hx with ⟨it, hit, rfl⟩
      exact mul_nonneg (hitems it hit).1 (hitems it hit).2
    linarith
  show 0 ≤ (normalizeItems items).foldl
        (fun sum it => sum + it.quantity * it.unit_price) 0
      - (normalizeItems items).foldl
        (fun sum it => sum + it.quantity * it.unit_price) 0
        * (parseFloatOr0 d / 100)
      + ((normalizeItems items).foldl
          (fun sum it => sum + it.quantity * it.unit_price) 0
        - (normalizeItems items).foldl
          (fun sum it => sum + it.quantity * it.unit_price) 0
          * (parseFloatOr0 d / 100))
        * (parseFloatOr0 t / 100)
  set s := (normalizeItems items).foldl
      (fun sum it => sum + it.quantity * it.unit_price) 0 with hsdef
  set dq := parseFloatOr0 d with hdq
  set tq := parseFloatOr0 t with htq
  have htaxable : 0 ≤ s - s * (dq / 100) := by nlinarith
  nlinarith

/-- C6 amended witness: the amended theorem instantiated at the concrete
scenario items=[(Design, 10, 50)], discount 10%, tax 8%. -/
theorem totals_nonneg_amended_witness :
    0 ≤ (calculateFormTotals [⟨none, some "Design", .num 10, .num 50⟩]
        (.num 10) (.num 8)).total
    ∧ (calculateFormTotals [⟨none, some "Design", .num 10, .num 50⟩]
        (.num 10) (.num 8)).total
        = (calculateFormTotals [⟨none, some "Design", .num 10, .num 50⟩]
            (.num 10) (.num 8)).subtotal
          - (calculateFormTotals [⟨none, some "Design", .num 10, .num 50⟩]
            (.num 10) (.num 8)).discount
          + (calculateFormTotals [⟨none, some "Design", .num 10, .num 50⟩]
            (.num 10) (.num 8)).tax :=
  totals_nonneg_amended _ _ _ (by decide) (by norm_num [parseFloatOr0])
    (by norm_num [parseFloatOr0]) (by norm_num [parseFloatOr0])

/-- For a buffer none of whose items carries id `0`, filtering to truthy-id
items (as `desiredIds` does) does not change whether a genuine id `some n`,
`n ≠ 0`, occurs among the collected ids. -/
theorem desiredIds_contains_eq (n : ℕ) :
    ∀ buffer : List Item, (∀ it ∈ buffer, it.id ≠ some 0) →
      ((buffer.filter (fun it => jsTruthyId it.id)).map
          (fun it => it.id)).contains (some n)
        = (buffer.map (fun it => it.id)).contains (some n) := by
  intro buffer
  induction buffer with
  | nil => intro _; rfl
  | cons b bs ih =>
    intro hb
    have hbs : ∀ it ∈ bs, it.id ≠ some 0 :=
      fun it hit => hb it (List.mem_cons_of_mem _ hit)
    by_cases htr : jsTruthyId b.id = true
    · simp only [List.filter_cons, htr, if_true, List.map_cons,
        List.contains_cons, ih hbs]
    · have hfalse : jsTruthyId b.id = false := by
        simpa using htr
      have hbnone : b.id = none := by
        cases hid : b.id with
        | none => rfl
        | some m =>
          by_cases hm : m = 0
          · exact absurd (hid.trans (by rw [hm]))
              (hb b (List.mem_cons_self b bs))
          · rw [hid] at hfalse
            simp [jsTruthyId, hm] at hfalse
      rw [List.filter_cons_of_neg (by simp [hfalse])]
      rw [ih hbs, List.map_cons, List.contains_cons, hbnone]
      simp

/-- C2 counterexample: the claim promises an update operation for every
edit-buffer item carrying a persisted id, but `if (item.id)` uses JavaScript
truthiness, under which the id `0` is falsy: with persisted items
[(id=0, A, 1, 1)] and edit buffer [(id=0, A, 2, 1)] the sync emits a create
followed by a delete of the persisted item, and no update at all. -/
theorem sync_zero_id_counterexample :
    syncInvoiceItems 7 [⟨some 0, "A", 1, 1⟩] [⟨some 0, "A", 2, 1⟩]
      = [ItemOp.create 7 "A" 2 1, ItemOp.delete 7 (some 0)]
    ∧ syncInvoiceItems 7 [⟨some 0, "A", 1, 1⟩] [⟨some 0, "A", 2, 1⟩]
      ≠ [ItemOp.update 7 (some 0) "A" 2 1] := by
  constructor
  · decide
  · decide

/-- C2 (amended): provided no item id is the number `0` (which JavaScript
truthiness treats as an absent id), item synchronization emits exactly one
update per edit-buffer item carrying a persisted id, one create per
edit-buffer item without an id, and one delete per persisted item whose id
does not appear among the edit-buffer ids; updates and creates come in
edit-buffer order and all deletes follow them. In particular persisted
[A(id=1), B(id=2)] with buffer [A2(id=1), C(no id)] yields update(1),
create(C), delete(2), in that order. -/
theorem sync_plan_spec :
    (∀ (invId : ℕ) (existingItems buffer : List Item),
      (∀ it ∈ existingItems, it.id ≠ none ∧ it.id ≠ some 0) →
      (∀ it ∈ buffer, it.id ≠ some 0) →
      syncInvoiceItems invId existingItems buffer
        = buffer.map (fun it =>
            if it.id.isSome then
              ItemOp.update invId it.id it.description it.quantity
                it.unit_price
            else
              ItemOp.create invId it.description it.quantity it.unit_price)
          ++ (existingItems.filter (fun it =>
                !((buffer.map (fun b => b.id)).contains it.id))).map
              (fun it => ItemOp.delete invId it.id))
    ∧ syncInvoiceItems 7
        [⟨some 1, "A", 1, 10⟩, ⟨some 2, "B", 2, 20⟩]
        [⟨some 1, "A2", 3, 30⟩, ⟨none, "C", 1, 5⟩]
      = [ItemOp.update 7 (some 1) "A2" 3 30,
         ItemOp.create 7 "C" 1 5,
         ItemOp.delete 7 (some 2)] := by
  constructor
  · intro invId existingItems buffer hex hbuf
    simp only [syncInvoiceItems]
    congr 1
    · apply List.map_congr_left
      intro it hit
      have h0 : it.id ≠ some 0 := hbuf it hit
      cases hid : it.id with
      | none => simp [jsTruthyId, hid]
      | some m =>
        have hm : m ≠ 0 := by
          intro h
          exact h0 (by rw [hid, h])
        simp [jsTruthyId, hid, hm]
    · congr 1
      apply List.filter_congr
      intro it hit
      rcases hex it hit with ⟨hnone, hzero⟩
      cases hid : it.id with
      | none => exact absurd hid hnone
      | some m =>
        rw [desiredIds_contains_eq m buffer hbuf]
  · decide

/-- C2 witness: the amended plan equation instantiated at the concrete
scenario from the claim, with both hypotheses discharged. -/
theorem sync_plan_spec_witness :
    syncInvoiceItems 7
        [⟨some 1, "A", 1, 10⟩, ⟨some 2, "B", 2, 20⟩]
        [⟨some 1, "A2", 3, 30⟩, ⟨none, "C", 1, 5⟩]
      = ([⟨some 1, "A2", 3, 30⟩, ⟨none, "C", 1, 5⟩] : List Item).map
          (fun it =>
            if it.id.isSome then
              ItemOp.update 7 it.id it.description it.quantity it.unit_price
            else
              ItemOp.create 7 it.description it.quantity it.unit_price)
        ++ (([⟨some 1, "A", 1, 10⟩, ⟨some 2, "B", 2, 20⟩] : List Item).filter
              (fun it =>
                !((([⟨some 1, "A2", 3, 30⟩, ⟨none, "C", 1, 5⟩] :
                    List Item).map (fun b => b.id)).contains it.id))).map
            (fun it => ItemOp.delete 7 it.id) :=
  sync_plan_spec.1 7
    [⟨some 1, "A", 1, 10⟩, ⟨some 2, "B", 2, 20⟩]
    [⟨some 1, "A2", 3, 30⟩, ⟨none, "C", 1, 5⟩]
    (by decide) (by decide)

/-- C3: the overdue display flag of the Invoices page is true exactly when
the due date is set, earlier than the current time, and the stored status is
neither paid nor cancelled; in particular a past due date with status sent
gives true and the same due date with status paid gives false. -/
theorem isOverdue_policy :
    (∀ (d : Option ℤ) (now : ℤ) (status : String),
      isOverdue d now status = true
        ↔ ∃ t, d = some t ∧ t < now ∧ status ≠ "paid"
            ∧ status ≠ "cancelled")
    ∧ isOverdue (some 0) 1 "sent" = true
    ∧ isOverdue (some 0) 1 "paid" = false := by
  refine ⟨?_, by decide, by decide⟩
  intro d now status
  cases d with
  | none => simp [isOverdue]
  | some t => simp [isOverdue, and_assoc]

/-- C4 (code bug): the overdue derivations of the two invoice pages are not
the same function: at a set, past due date with status cancelled the
Invoices.jsx flag is false (cancelled is excluded per the policy) while the
src/unnamed/part_001 variant yields true, since it only excludes paid. -/
theorem isOverdue_variants_disagree :
    isOverdue (some 0) 1 "cancelled" = false
    ∧ isOverdueLegacy (some 0) 1 "cancelled" = true
    ∧ isOverdueLegacy (some 0) 1 "cancelled"
        ≠ isOverdue (some 0) 1 "cancelled" := by
  exact ⟨by decide, by decide, by decide⟩

set_option maxRecDepth 10000 in
/-- C5: for every non-custom vocabulary terms value and a set issue date,
the resolver sets due_date = issue_date plus the table offset in calendar
days (due_on_receipt 0, net_7 7, net_15 15, net_30 30, net_60 60); in
particular 2024-01-01 plus the net_30 offset is 2024-01-31 and the
due_on_receipt offset keeps the issue date. -/
theorem handleTermsChange_offsets (form : Form) (value : String) (d : Date)
    (hv : value = "due_on_receipt" ∨ value = "net_7" ∨ value = "net_15"
      ∨ value = "net_30" ∨ value = "net_60")
    (hd : form.issue_date = some d) :
    (handleTermsChange form value).due_date
      = some (addDays d ((PAYMENT_DAYS value).getD 30))
    ∧ PAYMENT_DAYS "due_on_receipt" = some 0
    ∧ PAYMENT_DAYS "net_7" = some 7
    ∧ PAYMENT_DAYS "net_15" = some 15
    ∧ PAYMENT_DAYS "net_30" = some 30
    ∧ PAYMENT_DAYS "net_60" = some 60
    ∧ addDays ⟨2024, 1, 1⟩ 30 = ⟨2024, 1, 31⟩
    ∧ addDays ⟨2024, 1, 1⟩ 0 = ⟨2024, 1, 1⟩ := by
  refine ⟨?_, by decide, by decide, by decide, by decide, by decide,
    by decide, rfl⟩
  have hnc : value ≠ "custom" := by
    rcases hv with h | h | h | h | h <;> simp [h]
  simp only [handleTermsChange, hd]
  simp [hnc]

/-- C5 witness: the resolver applied to the default form for 2024-01-01 with
net_30 produces the issue date plus the net_30 table offset. -/
theorem handleTermsChange_offsets_witness :
    (handleTermsChange (getDefaultForm ⟨2024, 1, 1⟩) "net_30").due_date
      = some (addDays ⟨2024, 1, 1⟩ ((PAYMENT_DAYS "net_30").getD 30)) :=
  (handleTermsChange_offsets (getDefaultForm ⟨2024, 1, 1⟩) "net_30"
    ⟨2024, 1, 1⟩ (by decide) rfl).1

/-- C7: the terms resolver changes at most `payment_terms` and `due_date`;
a change to custom keeps the due date as currently set, and with no issue
date set the due date is kept for every terms value. -/
theorem handleTermsChange_frame (form : Form) (value : String) :
    ((handleTermsChange form value).issue_date = form.issue_date
      ∧ (handleTermsChange form value).tax_rate = form.tax_rate
      ∧ (handleTermsChange form value).discount_percent
          = form.discount_percent
      ∧ (handleTermsChange form value).description = form.description
      ∧ (handleTermsChange form value).notes = form.notes
      ∧ (handleTermsChange form value).project_id = form.project_id
      ∧ (handleTermsChange form value).items = form.items
      ∧ (handleTermsChange form value).client_id = form.client_id)
    ∧ (handleTermsChange form "custom").due_date = form.due_date
    ∧ (handleTermsChange { form with issue_date := none } value).due_date
        = form.due_date := by
  refine ⟨?_, ?_, rfl⟩
  · cases h : form.issue_date <;> simp [handleTermsChange, h]
  · cases h : form.issue_date <;> simp [handleTermsChange, h]

/-- C8 (code bug): the outcome visible to the caller does not report which
operations succeeded: the example plan failing at operation 1 (nothing
succeeded) and failing at operation 2 (the update succeeded) produce the
identical caller-visible result, and `handleSubmit` surfaces no error value
at all from a failed sync. -/
theorem sync_error_reporting_bug :
    (runSync apiFailUpdate examplePlan).2
        = (runSync apiFailCreate examplePlan).2
    ∧ (runSync apiFailUpdate examplePlan).1 = []
    ∧ (runSync apiFailCreate examplePlan).1
        = [ItemOp.update 7 (some 1) "A2" 3 30]
    ∧ (runSync apiFailUpdate examplePlan).1
        ≠ (runSync apiFailCreate examplePlan).1
    ∧ handleSubmitSurfaced (runSync apiFailCreate examplePlan).2 = none := by
  exact ⟨rfl, rfl, rfl, by decide, rfl⟩

/-- `modifyItemAt` never turns a non-empty list empty. -/
theorem modifyItemAt_ne_nil (f : RawItem → RawItem) (l : List RawItem)
    (n : ℕ) (h : l ≠ []) : modifyItemAt f l n ≠ [] := by
  cases l with
  | nil => exact absurd rfl h
  | cons a rest => cases n <;> simp [modifyItemAt]

/-- C9: the invoice edit buffer is never empty: the default form has one
blank item, loading an invoice with no items substitutes one blank item,
removing any index leaves a non-empty list (the last removal is replaced by
a blank item), adding appends, and editing an item field preserves
non-emptiness — so every form operation preserves a non-empty item list. -/
theorem form_items_nonempty :
    (∀ today : Date, (getDefaultForm today).items ≠ [])
    ∧ (∀ invoice : Invoice, (editForm invoice).items ≠ [])
    ∧ (∀ (form : Form) (index : ℕ), (removeItem form index).items ≠ [])
    ∧ (∀ form : Form, (addItem form).items ≠ [])
    ∧ (∀ (form : Form) (index : ℕ) (v : String),
        form.items ≠ [] → (setItemDescription form index v).items ≠ [])
    ∧ (∀ (form : Form) (index : ℕ) (v : RawNum),
        form.items ≠ [] → (setItemQuantity form index v).items ≠ [])
    ∧ (∀ (form : Form) (index : ℕ) (v : RawNum),
        form.items ≠ [] → (setItemUnitPrice form index v).items ≠ []) := by
  refine ⟨?_, ?_, ?_, ?_, ?_, ?_, ?_⟩
  · intro today
    simp [getDefaultForm]
  · intro invoice
    simp only [editForm]
    by_cases h : invoice.items.isEmpty
    · simp [h]
    · simp only [h, if_false, Bool.false_eq_true]
      intro hc
      rw [List.map_eq_nil_iff] at hc
      rw [hc] at h
      simp at h
  · intro form index
    simp only [removeItem]
    by_cases h : (form.items.eraseIdx index).isEmpty
    · simp [h]
    · simp only [h, if_false, Bool.false_eq_true]
      intro hc
      rw [hc] at h
      simp at h
  · intro form
    simp [addItem]
  · intro form index v h
    exact modifyItemAt_ne_nil _ _ _ h
  · intro form index v h
    exact modifyItemAt_ne_nil _ _ _ h
  · intro form index v h
    exact modifyItemAt_ne_nil _ _ _ h

/-- C9 witness: the field setters applied to the default form for
2024-01-01 (whose buffer is the single blank item) keep the buffer
non-empty. -/
theorem form_items_nonempty_witness :
    (setItemDescription (getDefaultForm ⟨2024, 1, 1⟩) 0 "Design").items ≠ []
    ∧ (setItemQuantity (getDefaultForm ⟨2024, 1, 1⟩) 0 (.num 10)).items ≠ []
    ∧ (setItemUnitPrice (getDefaultForm ⟨2024, 1, 1⟩) 0
        (.num 50)).items ≠ [] :=
  ⟨form_items_nonempty.2.2.2.2.1 (getDefaultForm ⟨2024, 1, 1⟩) 0 "Design"
      (by decide),
    form_items_nonempty.2.2.2.2.2.1 (getDefaultForm ⟨2024, 1, 1⟩) 0
      (.num 10) (by decide),
    form_items_nonempty.2.2.2.2.2.2 (getDefaultForm ⟨2024, 1, 1⟩) 0
      (.num 50) (by decide)⟩

/-- C10: for every terms value outside the six-entry vocabulary, the
resolver with a set issue date falls back to a 30-day offset:
`PAYMENT_DAYS[value] ?? 30` yields 30 and due_date becomes issue_date plus
30 calendar days. -/
theorem handleTermsChange_unknown_terms (form : Form) (value : String)
    (d : Date)
    (hv : value ∉ ["due_on_receipt", "net_7", "net_15", "net_30", "net_60",
      "custom"])
    (hd : form.issue_date = some d) :
    (handleTermsChange form value).due_date = some (addDays d 30) := by
  simp only [List.mem_cons, List.mem_singleton, not_or] at hv
  obtain ⟨h1, h2, h3, h4, h5, h6⟩ := hv
  simp only [handleTermsChange, hd, PAYMENT_DAYS]
  simp [h1, h2, h3, h4, h5, h6]

/-- C10 witness: the unknown value net_45 on the default form for
2024-01-01 resolves to issue date plus 30 days. -/
theorem handleTermsChange_unknown_terms_witness :
    (handleTermsChange (getDefaultForm ⟨2024, 1, 1⟩) "net_45").due_date
      = some (addDays ⟨2024, 1, 1⟩ 30) :=
  handleTermsChange_unknown_terms (getDefaultForm ⟨2024, 1, 1⟩) "net_45"
    ⟨2024, 1, 1⟩ (by decide) rfl

end ClientPortal
